import Mathlib

/-
Verification of the event fan-out subsystem of the todo backend:
event envelope and publisher (backend/app/events), and the three
consumers (services/audit, services/notification, services/recurring).

Each Lean definition is a shallow embedding of the Python function of the
same (or service-prefixed) name.  External effects (the Dapr state store,
the backing database, HTTP calls, WebSocket sends) are modelled by explicit
state values and outcome parameters; ambient inputs (the current date,
fresh ids) are passed as arguments.
-/

namespace Spec2Proof

/-! ## Calendar model

Models Python `datetime.date` (proleptic Gregorian calendar) and the day
arithmetic of `datetime.timedelta` via the standard civil-calendar
conversions between a date and its day number, plus the calendar-aware
month/year arithmetic of `dateutil.relativedelta` (add to the month index,
then clamp the day to the length of the resulting month). -/

structure Date where
  year : Int
  month : Int
  day : Int
deriving DecidableEq, Repr

def isLeapYear (y : Int) : Bool :=
  y % 4 == 0 && (y % 100 != 0 || y % 400 == 0)

def daysInMonth (y : Int) (m : Int) : Int :=
  if m == 2 then (if isLeapYear y then 29 else 28)
  else if m == 4 || m == 6 || m == 9 || m == 11 then 30
  else 31

/-- Day number of a civil date (days since 1970-01-01, Gregorian). -/
def dateToDays (d : Date) : Int :=
  let y := if d.month ≤ 2 then d.year - 1 else d.year
  let era := Int.ediv y 400
  let yoe := y - era * 400
  let mp := Int.emod (d.month + 9) 12
  let doy := Int.ediv (153 * mp + 2) 5 + d.day - 1
  let doe := yoe * 365 + Int.ediv yoe 4 - Int.ediv yoe 100 + doy
  era * 146097 + doe - 719468

/-- Civil date of a day number; inverse of `dateToDays` on valid dates. -/
def daysToDate (z0 : Int) : Date :=
  let z := z0 + 719468
  let era := Int.ediv z 146097
  let doe := z - era * 146097
  let yoe := Int.ediv (doe - Int.ediv doe 1460 + Int.ediv doe 36524 - Int.ediv doe 146096) 365
  let y := yoe + era * 400
  let doy := doe - (365 * yoe + Int.ediv yoe 4 - Int.ediv yoe 100)
  let mp := Int.ediv (5 * doy + 2) 153
  let dd := doy - Int.ediv (153 * mp + 2) 5 + 1
  let mm := mp + (if mp < 10 then 3 else -9)
  { year := if mm ≤ 2 then y + 1 else y, month := mm, day := dd }

/-- `date + timedelta(days=n)`. -/
def addDays (d : Date) (n : Int) : Date :=
  daysToDate (dateToDays d + n)

/-- `date + relativedelta(months=n)`: month arithmetic with day clamping. -/
def addMonths (d : Date) (n : Int) : Date :=
  let m0 := d.month - 1 + n
  let y := d.year + Int.ediv m0 12
  let m := Int.emod m0 12 + 1
  { year := y, month := m, day := min d.day (daysInMonth y m) }

/-- `date + relativedelta(years=n)`: year arithmetic with day clamping. -/
def addYears (d : Date) (n : Int) : Date :=
  let y := d.year + n
  { year := y, month := d.month, day := min d.day (daysInMonth y d.month) }

/-- Python date comparison `a < b` (dates compare by calendar order). -/
def dateLtB (a b : Date) : Bool :=
  dateToDays a < dateToDays b

/-! ## Recurring task service (`services/recurring/main.py`)

State-store access (`get_recurrence_state` / `save_recurrence_state` /
`delete_recurrence_state`) is modelled by a map from the task id to the
stored recurrence state; the handler ignores the boolean result of saves
and deletes exactly as the Python code does.  Stored values are modelled
already parsed: a stored ISO date string that fails `date.fromisoformat`,
or a config dict rejected by pydantic, raises in the Python handler and is
covered by the `none` event case (the catch-all `RETRY` path). -/

inductive RecurrencePattern where
  | daily
  | weekly
  | biweekly
  | monthly
  | yearly
deriving DecidableEq, Repr

/-- `calculate_next_due_date`: the Python `else` arm (daily fallback) is
unreachable because `RecurrencePattern` is a closed enumeration. -/
def calculate_next_due_date (current_due_date : Date)
    (pattern : RecurrencePattern) (interval : Int) : Date :=
  match pattern with
  | .daily => addDays current_due_date interval
  | .weekly => addDays current_due_date (7 * interval)
  | .biweekly => addDays current_due_date (7 * (2 * interval))
  | .monthly => addMonths current_due_date interval
  | .yearly => addYears current_due_date interval

structure RecurrenceConfig where
  pattern : RecurrencePattern
  interval : Int := 1
  end_date : Option Date := none
  max_occurrences : Option Int := none
  occurrences_created : Int := 0
deriving DecidableEq, Repr

/-- The denormalized `task_data` dict stored with the recurrence state. -/
structure TaskTemplate where
  title : Option String := none
  description : Option String := none
  priority : Option String := none
  category : Option String := none
  due_date : Option Date := none
deriving DecidableEq, Repr

structure RecurrenceState where
  config : RecurrenceConfig
  task_data : TaskTemplate
  parent_task_id : Option Int := none
deriving DecidableEq, Repr

/-- The Dapr state store, keyed by task id (key `recurrence-{task_id}`). -/
def RecStore : Type := Int → Option RecurrenceState

def emptyRecStore : RecStore := fun _ => none

/-- `save_recurrence_state` (successful write; result ignored by callers). -/
def save_recurrence_state (s : RecStore) (task_id : Int)
    (st : RecurrenceState) : RecStore :=
  fun k => if k = task_id then some st else s k

/-- `delete_recurrence_state` (successful delete; result ignored). -/
def delete_recurrence_state (s : RecStore) (task_id : Int) : RecStore :=
  fun k => if k = task_id then none else s k

/-- Python truthiness of an optional integer (`not task_id`). -/
def pyTruthyInt (o : Option Int) : Bool :=
  match o with
  | none => false
  | some n => n != 0

/-- Python truthiness of an optional string (`not user_id`). -/
def pyTruthyStr (o : Option String) : Bool :=
  match o with
  | none => false
  | some s => s != ""

/-- The fields of the delivered event read by the recurring handler. -/
structure RecEvent where
  type : String
  task_id : Option Int := none
  user_id : Option String := none
  completed : Bool := false
deriving DecidableEq, Repr

/-- Dapr pub/sub delivery outcome returned by consumer handlers. -/
inductive DeliveryStatus where
  | SUCCESS
  | RETRY
  | SKIP
deriving DecidableEq, Repr

/-- End-date end condition: `date.today() > end_date` when an end date is set. -/
def endDateHit (today : Date) (cfg : RecurrenceConfig) : Bool :=
  match cfg.end_date with
  | some ed => dateLtB ed today
  | none => false

/-- Max-occurrences end condition, with Python truthiness on the count
(`if config.max_occurrences and occurrences_created >= max_occurrences`). -/
def maxOccHit (cfg : RecurrenceConfig) : Bool :=
  match cfg.max_occurrences with
  | some m => m != 0 && decide (m ≤ cfg.occurrences_created)
  | none => false

/-- Result of one delivery to the recurring consumer: the answered status,
the state store afterwards, the task creation performed (new task id and
the due date it was created with) if the external call succeeded, and
whether the external task-creation call was attempted at all. -/
structure RecurringResult where
  status : DeliveryStatus
  store : RecStore
  created : Option (Int × Date)
  createCalled : Bool

/-- `handle_task_events` of the recurring service.

`today` is `date.today()`.  `createReply` is the outcome of the external
`create_next_task` call if one is made: `some newId` when the backend
answers 201 with the new task id in the body, `none` when the call fails
with a non-201 status or an exception (in which case `create_next_task`
returns Python `None`).  `ev = none` models a delivery whose processing
raises (malformed JSON body, pydantic validation error, unparsable stored
date), answered by the catch-all `RETRY`. -/
def recurring_handle_task_events (today : Date) (createReply : Option Int)
    (store : RecStore) (ev : Option RecEvent) : RecurringResult :=
  match ev with
  | none => ⟨.RETRY, store, none, false⟩
  | some e =>
    if e.type != "task.completed" then ⟨.SUCCESS, store, none, false⟩
    else if !(e.completed && pyTruthyInt e.task_id && pyTruthyStr e.user_id) then
      ⟨.SUCCESS, store, none, false⟩
    else
      let tid := e.task_id.getD 0
      match store tid with
      | none => ⟨.SUCCESS, store, none, false⟩
      | some st =>
        let hitEnd := endDateHit today st.config
        let store1 := if hitEnd then delete_recurrence_state store tid else store
        let hitMax := maxOccHit st.config
        let store2 := if hitMax then delete_recurrence_state store1 tid else store1
        if hitEnd || hitMax then ⟨.SUCCESS, store2, none, false⟩
        else
          let current_due := st.task_data.due_date.getD today
          let next_due :=
            calculate_next_due_date current_due st.config.pattern st.config.interval
          match createReply with
          | none => ⟨.SUCCESS, store2, none, true⟩
          | some newId =>
            let newSt : RecurrenceState :=
              { config := { st.config with
                  occurrences_created := st.config.occurrences_created + 1 },
                task_data := { st.task_data with due_date := some next_due },
                parent_task_id := some tid }
            ⟨.SUCCESS, save_recurrence_state store2 newId newSt,
              some (newId, next_due), true⟩

/-! ## Audit service (`services/audit/main.py`)

Event `data` payloads are dynamic Python dicts; they are modelled by an
association list of JSON-like values.  The `AuditLog` row is modelled at
the dict level: the Python code stores `old_data` / `new_data` /
`event_metadata` as `json.dumps` strings, modelled here as the dicts being
dumped.  The `timestamp` / `created_at` columns (ambient clock plus
ISO-8601 parsing of the optional `time` field) and `event_metadata` are
kept out of the row model; a malformed `time` string raises in
`parse_event_to_audit` and is covered by the failing-parse case. -/

inductive PyVal where
  | str : String → PyVal
  | int : Int → PyVal
  | bool : Bool → PyVal
  | pynone : PyVal
  | dict : List (String × PyVal) → PyVal

/-- Python truthiness of a JSON-like value. -/
def pyTruthy (v : PyVal) : Bool :=
  match v with
  | .str s => s != ""
  | .int n => n != 0
  | .bool b => b
  | .pynone => false
  | .dict l => !l.isEmpty

/-- `d.get(k)` on a dict modelled as an association list. -/
def lookupKey (d : List (String × PyVal)) (k : String) : Option PyVal :=
  match d with
  | [] => none
  | (k1, v1) :: rest => if k1 == k then some v1 else lookupKey rest k

/-- `needle in haystack` on lists of characters: some suffix of the
haystack starts with the needle. -/
def subListOf (needle : List Char) : List Char → Bool
  | [] => needle.isEmpty
  | c :: cs => (needle.isPrefixOf (c :: cs)) || subListOf needle cs

/-- Python substring containment `needle in haystack`. -/
def strIn (needle haystack : String) : Bool :=
  subListOf needle.data haystack.data

/-- The action-derivation chain of `parse_event_to_audit`: first matching
substring wins, in source order. -/
def derive_action (event_type : String) : String :=
  if strIn "created" event_type then "created"
  else if strIn "updated" event_type then "updated"
  else if strIn "deleted" event_type then "deleted"
  else if strIn "completed" event_type then "completed"
  else if strIn "uncompleted" event_type then "uncompleted"
  else "unknown"

/-- The entity-type derivation chain of `parse_event_to_audit`. -/
def derive_entity (event_type : String) : String :=
  if strIn "task" event_type then "task"
  else if strIn "reminder" event_type then "reminder"
  else if strIn "conversation" event_type then "conversation"
  else "unknown"

/-- `{k: v.get("old") for k, v in changes.items() if isinstance(v, dict)}` -/
def extract_old (changes : List (String × PyVal)) : List (String × PyVal) :=
  changes.filterMap fun kv =>
    match kv.2 with
    | .dict vd => some (kv.1, (lookupKey vd "old").getD .pynone)
    | _ => none

/-- `{k: v.get("new") for k, v in changes.items() if isinstance(v, dict)}` -/
def extract_new (changes : List (String × PyVal)) : List (String × PyVal) :=
  changes.filterMap fun kv =>
    match kv.2 with
    | .dict vd => some (kv.1, (lookupKey vd "new").getD .pynone)
    | _ => none

/-- The envelope fields read by `parse_event_to_audit`. -/
structure AuditEvent where
  type : Option String := none
  id : Option String := none
  source : Option String := none
  data : List (String × PyVal) := []

/-- The modelled columns of the `audit_log` row. -/
structure AuditLog where
  event_id : String
  event_type : String
  topic : String
  user_id : Option PyVal
  entity_type : String
  entity_id : Option PyVal
  action : String
  old_data : Option (List (String × PyVal))
  new_data : Option (List (String × PyVal))
  source : String

/-- `parse_event_to_audit`.  Returns `none` when the Python function
raises: the only raising step inside the model is `changes.items()` on a
non-dict `"changes"` value.  Note the `if old_data else None` /
`if new_data else None` guards: an empty extracted dict is falsy and is
stored as NULL. -/
def parse_event_to_audit (event : AuditEvent) (topic : String) :
    Option AuditLog :=
  let event_type := event.type.getD "unknown"
  let data := event.data
  let action := derive_action event_type
  let entity_type := derive_entity event_type
  let oldNew :
      Option (Option (List (String × PyVal)) × Option (List (String × PyVal))) :=
    if action == "updated" && (lookupKey data "changes").isSome then
      match lookupKey data "changes" with
      | some (.dict ch) =>
        let o := extract_old ch
        let n := extract_new ch
        some ((if o.isEmpty then none else some o),
              (if n.isEmpty then none else some n))
      | _ => none
    else if action == "created" then
      some (none, if data.isEmpty then none else some data)
    else
      some (none, none)
  match oldNew with
  | none => none
  | some (od, nd) =>
    some
      { event_id := event.id.getD ""
        event_type := event_type
        topic := topic
        user_id := lookupKey data "user_id"
        entity_type := entity_type
        entity_id :=
          match lookupKey data "task_id" with
          | some v => if pyTruthy v then some v else lookupKey data "entity_id"
          | none => lookupKey data "entity_id"
        action := action
        old_data := od
        new_data := nd
        source := event.source.getD "backend" }

/-- The audit backing store: `none` when the database engine was never
configured, otherwise the list of persisted rows. -/
def AuditDb : Type := Option (List AuditLog)

/-- `save_audit_log`: returns whether the row was persisted, plus the
store afterwards.  An insert that throws is caught inside this function
(`insertFails`), logged, and surfaces only as a `false` result; with no
engine configured it returns `false` without touching anything. -/
def save_audit_log (insertFails : Bool) (db : AuditDb) (audit : AuditLog) :
    Bool × AuditDb :=
  match db with
  | none => (false, none)
  | some rows =>
    if insertFails then (false, some rows) else (true, some (rows ++ [audit]))

/-- `handle_task_events` of the audit service.  `ev = none` models a
delivery whose body fails to parse or whose `parse_event_to_audit` raises
before the row is built; the boolean result of `save_audit_log` is
ignored, exactly as in the source. -/
def audit_handle_task_events (insertFails : Bool) (db : AuditDb)
    (ev : Option AuditEvent) : DeliveryStatus × AuditDb :=
  match ev with
  | none => (.RETRY, db)
  | some e =>
    match parse_event_to_audit e "task-events" with
    | none => (.RETRY, db)
    | some audit => (.SUCCESS, (save_audit_log insertFails db audit).2)

/-! ## Notification service (`services/notification/main.py`)

`ConnectionManager.active_connections` (`Dict[str, Set[WebSocket]]`) is
modelled as a map from user id to an optional duplicate-free list of
connection identifiers; `connection.send_json` failing with some exception
is modelled by a predicate `fails` on connection identifiers. -/

def ConnMap : Type := String → Option (List Nat)

def emptyConnMap : ConnMap := fun _ => none

def cmUpdate (m : ConnMap) (u : String) (v : Option (List Nat)) : ConnMap :=
  fun k => if k = u then v else m k

/-- `ConnectionManager.connect` (after the accept): create the entry if
missing, then add the connection to the set. -/
def cmConnect (m : ConnMap) (u : String) (w : Nat) : ConnMap :=
  match m u with
  | none => cmUpdate m u (some [w])
  | some s => cmUpdate m u (some (if s.contains w then s else s ++ [w]))

/-- `ConnectionManager.disconnect`: discard the connection, and delete the
key when the remaining set is empty. -/
def cmDisconnect (m : ConnMap) (u : String) (w : Nat) : ConnMap :=
  match m u with
  | none => m
  | some s =>
    let s1 := s.filter fun c => c != w
    if s1.isEmpty then cmUpdate m u none else cmUpdate m u (some s1)

/-- `ConnectionManager.send_to_user`: send to every connection of the
user, collect the connections whose send raised, and discard exactly
those from the set.  The key itself is never deleted here. -/
def cmSendToUser (m : ConnMap) (u : String) (fails : Nat → Bool) : ConnMap :=
  match m u with
  | none => m
  | some s => cmUpdate m u (some (s.filter fun c => fails c = false))

/-- The registry invariant: every registered user id maps to a non-empty
set of connections. -/
def registryInv (m : ConnMap) : Prop :=
  ∀ u s, m u = some s → s ≠ []

/-- The event fields read by the notification handler. -/
structure NotifEvent where
  type : String
  title : Option String := none
  task_id : Option Int := none
  user_id : Option String := none
  changes : List String := []
deriving DecidableEq, Repr

/-- `f"{x}"` on an optional value: Python interpolates `None` as "None". -/
def pyInterp (o : Option String) : String :=
  match o with
  | some s => s
  | none => "None"

/-- The notification payload built by the handler (`timestamp` is the
`now` argument, modelling `datetime.utcnow().isoformat()`). -/
structure Notification where
  type : String
  title : String
  message : String
  task_id : Option Int
  timestamp : String
deriving DecidableEq, Repr

/-- The `if event_type == ...` chain of the notification handler; `none`
means no notification is built (unmapped type, or an update event with an
empty change-set). -/
def notification_for (now : String) (e : NotifEvent) : Option Notification :=
  if e.type == "task.created" then
    some ⟨"task.created", "New Task Created",
      "Task \x27" ++ pyInterp e.title ++ "\x27 has been created",
      e.task_id, now⟩
  else if e.type == "task.completed" then
    some ⟨"task.completed", "Task Completed",
      "Task \x27" ++ pyInterp e.title ++ "\x27 has been marked as complete",
      e.task_id, now⟩
  else if e.type == "task.uncompleted" then
    some ⟨"task.uncompleted", "Task Reopened",
      "Task \x27" ++ pyInterp e.title ++ "\x27 has been reopened",
      e.task_id, now⟩
  else if e.type == "task.deleted" then
    some ⟨"task.deleted", "Task Deleted", "A task has been deleted",
      e.task_id, now⟩
  else if e.type == "task.updated" then
    if e.changes.isEmpty then none
    else
      some ⟨"task.updated", "Task Updated",
        "Task updated: " ++ String.intercalate ", " e.changes,
        e.task_id, now⟩
  else none

/-- Result of one delivery to the notification consumer: the answered
status, the connection registry afterwards, and the push performed (user
id and payload) if one was attempted. -/
structure NotifResult where
  status : DeliveryStatus
  registry : ConnMap
  pushed : Option (String × Notification)

/-- `handle_task_events` of the notification service.  `ev = none` models
a delivery whose processing raises (malformed JSON body), answered by the
catch-all `RETRY`.  An event without a truthy `user_id` is answered with
the literal status string "SKIP". -/
def notification_handle_task_events (now : String) (fails : Nat → Bool)
    (m : ConnMap) (ev : Option NotifEvent) : NotifResult :=
  match ev with
  | none => ⟨.RETRY, m, none⟩
  | some e =>
    if !pyTruthyStr e.user_id then ⟨.SKIP, m, none⟩
    else
      let uid := e.user_id.getD ""
      match notification_for now e with
      | some n => ⟨.SUCCESS, cmSendToUser m uid fails, some (uid, n)⟩
      | none => ⟨.SUCCESS, m, none⟩

/-! ## Event schemas (`backend/app/events/schemas.py`)

`TaskEvent` is the pydantic envelope.  `id` and `time` have
default factories (`uuid4`, `utcnow`); parsing therefore takes the fresh
values those factories would produce as arguments, and uses them only
when the corresponding key is absent from the wire dict.  `to_dict` is
`model_dump`, producing the dict keyed by the field names. -/

structure TaskEvent where
  specversion : String := "1.0"
  id : String
  source : String := "todo-backend"
  type : String
  datacontenttype : String := "application/json"
  time : String
  version : String := "1.0"
  data : List (String × PyVal)

/-- `TaskEvent.to_dict` / `model_dump`: the wire dict of the envelope. -/
def TaskEvent.to_dict (e : TaskEvent) : List (String × PyVal) :=
  [("specversion", .str e.specversion),
   ("id", .str e.id),
   ("source", .str e.source),
   ("type", .str e.type),
   ("datacontenttype", .str e.datacontenttype),
   ("time", .str e.time),
   ("version", .str e.version),
   ("data", .dict e.data)]

/-- Pydantic validation of one optional string field: absent keys take
the default, present keys must hold a string. -/
def getStrField (d : List (String × PyVal)) (k : String) (dflt : String) :
    Option String :=
  match lookupKey d k with
  | none => some dflt
  | some (.str s) => some s
  | some _ => none

/-- Pydantic validation `TaskEvent(**d)`: `type` and `data` are required,
every other field falls back to its default (`freshId` / `freshTime` for
the factory-defaulted `id` / `time`). -/
def parse_task_event (freshId freshTime : String)
    (d : List (String × PyVal)) : Option TaskEvent :=
  match lookupKey d "type", lookupKey d "data" with
  | some (.str t), some (.dict dd) =>
    match getStrField d "specversion" "1.0", getStrField d "id" freshId,
        getStrField d "source" "todo-backend",
        getStrField d "datacontenttype" "application/json",
        getStrField d "time" freshTime, getStrField d "version" "1.0" with
    | some sv, some i, some src, some dct, some tm, some vv =>
      some ⟨sv, i, src, t, dct, tm, vv, dd⟩
    | _, _, _, _, _, _ => none
  | _, _ => none

/-! ## Event publisher (`backend/app/events/publisher.py`)

The environment is modelled as the list of outcomes the broker-facing
sidecar would give to each successive HTTP publish attempt: the loop
`for attempt in range(retry_count)` consumes one planned outcome per
iteration, so a plan of length `retry_count` describes one `publish`
call.  All three `except` arms are modelled; the early `return False` on
a connection error during the last attempt is kept even though it is
behaviourally equal to falling off the loop. -/

inductive Topics where
  | TASK_EVENTS
  | REMINDERS
  | TASK_UPDATES
deriving DecidableEq, Repr

inductive AttemptOutcome where
  | status : Nat → AttemptOutcome
  | connError : AttemptOutcome
  | timeoutErr : AttemptOutcome
  | unexpectedErr : AttemptOutcome
deriving DecidableEq, Repr

/-- An attempt succeeds exactly when the sidecar answers 200 or 204. -/
def attemptOk (o : AttemptOutcome) : Bool :=
  match o with
  | .status c => c == 200 || c == 204
  | _ => false

structure EventPublisher where
  dapr_host : String := "localhost"
  dapr_port : Nat := 3500
  pubsub_name : String := "pubsub-kafka"
  timeout : Nat := 10
  enabled : Bool := true
deriving DecidableEq, Repr

/-- The retry loop of `EventPublisher.publish`: returns the boolean
result together with the number of HTTP attempts actually made. -/
def publishLoop : List AttemptOutcome → Bool × Nat
  | [] => (false, 0)
  | o :: rest =>
    if attemptOk o then (true, 1)
    else
      match o with
      | .connError =>
        if rest.isEmpty then (false, 1)
        else
          let r := publishLoop rest
          (r.1, r.2 + 1)
      | _ =>
        let r := publishLoop rest
        (r.1, r.2 + 1)

/-- `EventPublisher.publish(topic, event, retry_count)`, with
`retry_count = plan.length` planned attempt outcomes.  When the publisher
is disabled it returns `True` immediately, making zero attempts; the
topic and event feed only the request URL and payload and do not affect
control flow. -/
def publish (p : EventPublisher) (_topic : Topics) (_event : TaskEvent)
    (plan : List AttemptOutcome) : Bool × Nat :=
  if !p.enabled then (true, 0)
  else publishLoop plan

/-! ## Concrete example inputs

The end-to-end scenario of the spec (recurrence for task 42, `daily`,
interval 1, template due 2026-02-01, completion by user "u1", the backend
assigning id 100 to the spawned task), plus the inputs used by the other
concrete checks. -/

def exState : RecurrenceState :=
  { config := { pattern := .daily, interval := 1, end_date := none,
                max_occurrences := none, occurrences_created := 0 },
    task_data := { title := some "Standup", description := none,
                   priority := some "medium", category := some "work",
                   due_date := some ⟨2026, 2, 1⟩ },
    parent_task_id := none }

/-- The state the handler writes at the new task id in the scenario:
count incremented, due date advanced to 2026-02-02, parent back-link. -/
def exNewState : RecurrenceState :=
  { config := { pattern := .daily, interval := 1, end_date := none,
                max_occurrences := none, occurrences_created := 1 },
    task_data := { title := some "Standup", description := none,
                   priority := some "medium", category := some "work",
                   due_date := some ⟨2026, 2, 2⟩ },
    parent_task_id := some 42 }

def exStore : RecStore := save_recurrence_state emptyRecStore 42 exState

def exEvent : RecEvent :=
  { type := "task.completed", task_id := some 42, user_id := some "u1",
    completed := true }

/-- The scenario delivery with the task-creation call succeeding. -/
def exRes : RecurringResult :=
  recurring_handle_task_events ⟨2026, 2, 1⟩ (some 100) exStore (some exEvent)

/-- The scenario delivery with the task-creation call failing. -/
def exResFail : RecurringResult :=
  recurring_handle_task_events ⟨2026, 2, 1⟩ none exStore (some exEvent)

/-- Recurrence state that has reached its maximum occurrence count. -/
def exStateMax : RecurrenceState :=
  { config := { pattern := .weekly, interval := 1, end_date := none,
                max_occurrences := some 1, occurrences_created := 1 },
    task_data := { title := some "Weekly", description := none,
                   priority := some "medium", category := some "other",
                   due_date := some ⟨2026, 1, 1⟩ },
    parent_task_id := none }

/-- A well-formed completion event as seen by the audit consumer. -/
def exAuditEvent : AuditEvent :=
  { type := some "task.completed", id := some "evt-1",
    source := some "backend",
    data := [("task_id", .int 5), ("user_id", .str "u1"),
             ("title", .str "Standup"), ("completed", .bool true)] }

/-- An uncompletion event as seen by the audit consumer. -/
def exUncompletedEvent : AuditEvent :=
  { type := some "task.uncompleted", id := some "evt-2",
    source := some "backend",
    data := [("task_id", .int 5), ("user_id", .str "u1"),
             ("title", .str "Standup"), ("completed", .bool false)] }

/-- A mapped notification event that lacks a user id. -/
def exNoUserEvent : NotifEvent :=
  { type := "task.created", title := some "Standup", task_id := some 5,
    user_id := none, changes := [] }

/-- A minimal concrete envelope for publisher witnesses. -/
def exTaskEvent : TaskEvent :=
  { id := "11111111-1111-1111-1111-111111111111",
    type := "task.created", time := "2026-02-01T00:00:00Z",
    data := [("task_id", .int 5), ("user_id", .str "u1")] }

/-! ## Helper lemmas -/

/-- Filtering a list down to the elements on which `fails` is `false`
yields the empty list when `fails` holds everywhere. -/
theorem filter_all_fail_eq_nil (fails : Nat → Bool) (s : List Nat)
    (h : ∀ c ∈ s, fails c = true) :
    (s.filter fun c => fails c = false) = [] := by
  induction s with
  | nil => rfl
  | cons a t ih =>
    have ha := h a (List.mem_cons_self a t)
    have ht := ih fun c hc => h c (List.mem_cons_of_mem a hc)
    simp [List.filter_cons, ha, ht]
    exact fun c hc => h c (List.mem_cons_of_mem a hc)

/-- Pointwise updates preserve the registry invariant as long as the new
value is not an empty set. -/
theorem registryInv_update (m : ConnMap) (u : String) (v : Option (List Nat))
    (hm : registryInv m) (hv : ∀ s, v = some s → s ≠ []) :
    registryInv (cmUpdate m u v) := by
  intro u2 s2 h2
  unfold cmUpdate at h2
  split at h2
  · exact hv s2 h2
  · exact hm u2 s2 h2

/-- When every planned attempt fails, the publish retry loop exhausts the
whole plan and reports failure. -/
theorem publishLoop_all_fail (plan : List AttemptOutcome)
    (h : ∀ o ∈ plan, attemptOk o = false) :
    publishLoop plan = (false, plan.length) := by
  induction plan with
  | nil => rfl
  | cons o rest ih =>
    have ho := h o (List.mem_cons_self o rest)
    have hr := ih fun x hx => h x (List.mem_cons_of_mem o hx)
    cases o with
    | connError =>
      cases rest with
      | nil => rfl
      | cons b t =>
        have step : publishLoop (AttemptOutcome.connError :: b :: t) =
            ((publishLoop (b :: t)).1, (publishLoop (b :: t)).2 + 1) := rfl
        rw [step, hr]
        rfl
    | status c =>
      have hno : ¬ attemptOk (AttemptOutcome.status c) = true := by
        simp [ho]
      have step : publishLoop (AttemptOutcome.status c :: rest) =
          if attemptOk (AttemptOutcome.status c) = true then (true, 1)
          else ((publishLoop rest).1, (publishLoop rest).2 + 1) := rfl
      rw [step, if_neg hno, hr]
      rfl
    | timeoutErr =>
      have step : publishLoop (AttemptOutcome.timeoutErr :: rest) =
          ((publishLoop rest).1, (publishLoop rest).2 + 1) := rfl
      rw [step, hr]
      rfl
    | unexpectedErr =>
      have step : publishLoop (AttemptOutcome.unexpectedErr :: rest) =
          ((publishLoop rest).1, (publishLoop rest).2 + 1) := rfl
      rw [step, hr]
      rfl

/-! ## Claim theorems -/

/-- C1, counterexample.  In the end-to-end scenario (active daily
recurrence at task 42, completion delivered, creation succeeding with new
id 100) the handler writes the expected new state at key 100, but the
claim is false as stated: the recurrence state at the original task id 42
is still present afterwards — the handler never deletes the old key. -/
theorem recurring_old_state_not_deleted :
    exRes.store 100 = some exNewState ∧
    exRes.store 42 = some exState ∧
    exRes.store 42 ≠ none := by decide

/-- C1 (amended).  On a delivery of a `task.completed` event (with
`completed=true` and truthy ids) for a task with recurrence state whose
end conditions do not hold, a successful task-creation call makes the
handler answer SUCCESS and save, at the newly created task's id, the
state with `occurrences_created` incremented by one and the template's
due date advanced to the computed next date — while the state at the
original (completed) task's id is left in place, not deleted. -/
theorem recurring_spawn_rekeys_state (today : Date) (store : RecStore)
    (tid : Int) (uid : String) (newId : Int) (st : RecurrenceState)
    (htid : tid ≠ 0) (huid : uid ≠ "")
    (hst : store tid = some st)
    (hend : endDateHit today st.config = false)
    (hmax : maxOccHit st.config = false)
    (hnew : newId ≠ tid) :
    (recurring_handle_task_events today (some newId) store
        (some ⟨"task.completed", some tid, some uid, true⟩)).status = .SUCCESS ∧
    (recurring_handle_task_events today (some newId) store
        (some ⟨"task.completed", some tid, some uid, true⟩)).store newId = some
      { config := { st.config with
          occurrences_created := st.config.occurrences_created + 1 },
        task_data := { st.task_data with
          due_date := some (calculate_next_due_date
            (st.task_data.due_date.getD today) st.config.pattern
            st.config.interval) },
        parent_task_id := some tid } ∧
    (recurring_handle_task_events today (some newId) store
        (some ⟨"task.completed", some tid, some uid, true⟩)).store tid = some st := by
  have h1 : pyTruthyInt (some tid) = true := by
    simp [pyTruthyInt, bne_iff_ne, htid]
  have h2 : pyTruthyStr (some uid) = true := by
    simp [pyTruthyStr, bne_iff_ne, huid]
  simp [recurring_handle_task_events, h1, h2, hst, hend, hmax,
    save_recurrence_state, Ne.symm hnew, hnew]

/-- C1, witness: the amended theorem instantiated on the end-to-end
scenario of the spec. -/
theorem recurring_spawn_rekeys_state_witness :
    (recurring_handle_task_events ⟨2026, 2, 1⟩ (some 100) exStore
        (some ⟨"task.completed", some 42, some "u1", true⟩)).status = .SUCCESS ∧
    (recurring_handle_task_events ⟨2026, 2, 1⟩ (some 100) exStore
        (some ⟨"task.completed", some 42, some "u1", true⟩)).store 100 =
      some exNewState ∧
    (recurring_handle_task_events ⟨2026, 2, 1⟩ (some 100) exStore
        (some ⟨"task.completed", some 42, some "u1", true⟩)).store 42 =
      some exState := by
  have h := recurring_spawn_rekeys_state ⟨2026, 2, 1⟩ exStore 42 "u1" 100 exState
    (by decide) (by decide) rfl (by decide) (by decide) (by decide)
  exact ⟨h.1, h.2.1, h.2.2⟩

/-- C2, counterexample.  With active recurrence state, end conditions not
holding and the task-creation call failing, the delivery is answered
SUCCESS, not RETRY: the claimed RETRY answer is false on the code (the
handler checks `if new_task:` and falls through to SUCCESS). -/
theorem recurring_create_failure_not_retry :
    exResFail.status = .SUCCESS ∧
    exResFail.status ≠ .RETRY ∧
    exResFail.store 42 = some exState := by decide

/-- C2 (amended).  When the task-creation call fails (non-201 response or
exception, i.e. `create_next_task` returns None), the handler answers
SUCCESS — not RETRY — with no creation recorded, and the recurrence state
(including `occurrences_created`) is left completely unchanged. -/
theorem recurring_create_failure_answers_success (today : Date)
    (store : RecStore) (tid : Int) (uid : String) (st : RecurrenceState)
    (htid : tid ≠ 0) (huid : uid ≠ "")
    (hst : store tid = some st)
    (hend : endDateHit today st.config = false)
    (hmax : maxOccHit st.config = false) :
    (recurring_handle_task_events today none store
        (some ⟨"task.completed", some tid, some uid, true⟩)).status = .SUCCESS ∧
    (recurring_handle_task_events today none store
        (some ⟨"task.completed", some tid, some uid, true⟩)).created = none ∧
    (recurring_handle_task_events today none store
        (some ⟨"task.completed", some tid, some uid, true⟩)).createCalled = true ∧
    (∀ k, (recurring_handle_task_events today none store
        (some ⟨"task.completed", some tid, some uid, true⟩)).store k = store k) := by
  have h1 : pyTruthyInt (some tid) = true := by
    simp [pyTruthyInt, bne_iff_ne, htid]
  have h2 : pyTruthyStr (some uid) = true := by
    simp [pyTruthyStr, bne_iff_ne, huid]
  simp [recurring_handle_task_events, h1, h2, hst, hend, hmax]

/-- C2, witness: the amended theorem instantiated on the scenario with
the creation call failing. -/
theorem recurring_create_failure_answers_success_witness :
    (recurring_handle_task_events ⟨2026, 2, 1⟩ none exStore
        (some ⟨"task.completed", some 42, some "u1", true⟩)).status = .SUCCESS ∧
    (recurring_handle_task_events ⟨2026, 2, 1⟩ none exStore
        (some ⟨"task.completed", some 42, some "u1", true⟩)).store 42 =
      exStore 42 := by
  have h := recurring_create_failure_answers_success ⟨2026, 2, 1⟩ exStore 42 "u1"
    exState (by decide) (by decide) rfl (by decide) (by decide)
  exact ⟨h.1, h.2.2.2 42⟩

/-- C3, counterexample.  With the store configured (engine present) and
the single insert throwing, the audit delivery is answered SUCCESS — not
RETRY — and the entry is not persisted: `save_audit_log` swallows the
exception and the handler ignores its boolean result. -/
theorem audit_insert_failure_still_success :
    (audit_handle_task_events true (some []) (some exAuditEvent)).1 = .SUCCESS ∧
    (audit_handle_task_events true (some []) (some exAuditEvent)).1 ≠ .RETRY ∧
    (audit_handle_task_events true (some []) (some exAuditEvent)).2 = some [] := by
  refine ⟨rfl, by decide, rfl⟩

/-- C3 (amended).  For every event the audit consumer parses into an
entry, the delivery is answered SUCCESS whether or not the insert
succeeded (a throwing insert leaves the store unchanged and is still
answered SUCCESS); RETRY is answered exactly when processing the
delivered body raises before the save. -/
theorem audit_insert_failure_answers_success (insertFails : Bool)
    (db : AuditDb) (e : AuditEvent) (a : AuditLog)
    (hp : parse_event_to_audit e "task-events" = some a) :
    (audit_handle_task_events insertFails db (some e)).1 = .SUCCESS ∧
    (audit_handle_task_events insertFails db none).1 = .RETRY ∧
    (insertFails = true →
      (audit_handle_task_events insertFails db (some e)).2 = db) := by
  refine ⟨?_, rfl, ?_⟩
  · simp [audit_handle_task_events, hp]
  · intro hf
    subst hf
    cases db with
    | none => simp [audit_handle_task_events, hp, save_audit_log]
    | some rows => simp [audit_handle_task_events, hp, save_audit_log]

/-- C3, witness: the amended theorem instantiated on a concrete completed
event with a configured store and a throwing insert. -/
theorem audit_insert_failure_answers_success_witness :
    (audit_handle_task_events true (some []) (some exAuditEvent)).1 = .SUCCESS ∧
    (audit_handle_task_events true (some []) (some exAuditEvent)).2 = some [] := by
  have hs : (parse_event_to_audit exAuditEvent "task-events").isSome = true := by
    decide
  have h := audit_insert_failure_answers_success true (some []) exAuditEvent
    ((parse_event_to_audit exAuditEvent "task-events").get hs)
    (Option.some_get hs).symm
  exact ⟨h.1, h.2.2 rfl⟩

/-- C4, counterexample.  A mapped event whose data lacks a user id is
answered with the status string "SKIP" — neither SUCCESS nor RETRY — so
the claimed two-outcome set (and the claimed SUCCESS on a missing user
id) is false on the code. -/
theorem notification_outcome_includes_skip :
    (notification_handle_task_events "t0" (fun _ => false) emptyConnMap
        (some exNoUserEvent)).status = .SKIP ∧
    (notification_handle_task_events "t0" (fun _ => false) emptyConnMap
        (some exNoUserEvent)).status ≠ .SUCCESS ∧
    (notification_handle_task_events "t0" (fun _ => false) emptyConnMap
        (some exNoUserEvent)).status ≠ .RETRY ∧
    (notification_handle_task_events "t0" (fun _ => false) emptyConnMap
        (some exNoUserEvent)).pushed = none := by
  refine ⟨rfl, by decide, by decide, rfl⟩

/-- C4 (amended).  Every notification delivery is answered with exactly
one of SUCCESS, RETRY or SKIP; an event without a truthy user id is
answered SKIP with no push attempted and the registry untouched, and an
event with a user id but no notification mapping is answered SUCCESS with
no push attempted and the registry untouched. -/
theorem notification_outcomes (now : String) (fails : Nat → Bool)
    (m : ConnMap) (ev : Option NotifEvent) :
    ((notification_handle_task_events now fails m ev).status = .SUCCESS ∨
     (notification_handle_task_events now fails m ev).status = .RETRY ∨
     (notification_handle_task_events now fails m ev).status = .SKIP) ∧
    (∀ e, ev = some e → pyTruthyStr e.user_id = false →
      (notification_handle_task_events now fails m ev).status = .SKIP ∧
      (notification_handle_task_events now fails m ev).pushed = none ∧
      (notification_handle_task_events now fails m ev).registry = m) ∧
    (∀ e, ev = some e → pyTruthyStr e.user_id = true →
      notification_for now e = none →
      (notification_handle_task_events now fails m ev).status = .SUCCESS ∧
      (notification_handle_task_events now fails m ev).pushed = none ∧
      (notification_handle_task_events now fails m ev).registry = m) := by
  refine ⟨?_, ?_, ?_⟩
  · cases ev with
    | none => simp [notification_handle_task_events]
    | some e =>
      by_cases hu : pyTruthyStr e.user_id
      · cases hn : notification_for now e with
        | none => simp [notification_handle_task_events, hu, hn]
        | some n => simp [notification_handle_task_events, hu, hn]
      · simp [notification_handle_task_events, hu]
  · intro e he hu
    subst he
    simp [notification_handle_task_events, hu]
  · intro e he hu hn
    subst he
    simp [notification_handle_task_events, hu, hn]

/-- C4, witness: the amended theorem instantiated on a mapped event that
lacks a user id. -/
theorem notification_outcomes_witness :
    (notification_handle_task_events "t0" (fun _ => false) emptyConnMap
        (some exNoUserEvent)).status = .SKIP ∧
    (notification_handle_task_events "t0" (fun _ => false) emptyConnMap
        (some exNoUserEvent)).pushed = none := by
  have h := (notification_outcomes "t0" (fun _ => false) emptyConnMap
    (some exNoUserEvent)).2.1 exNoUserEvent rfl (by decide)
  exact ⟨h.1, h.2.1⟩

/-- C5.  The code evaluated at the failing input: an event of type
"task.uncompleted" is parsed to action "completed", not "uncompleted",
because the substring check for "completed" precedes the one for
"uncompleted" and "completed" is a substring of "task.uncompleted" — the
"uncompleted" branch of `parse_event_to_audit` is unreachable. -/
theorem audit_uncompleted_action_is_completed :
    (parse_event_to_audit exUncompletedEvent "task-events").map (·.action) =
      some "completed" ∧
    derive_action "task.uncompleted" = "completed" ∧
    derive_action "task.uncompleted" ≠ "uncompleted" := by
  refine ⟨rfl, rfl, by decide⟩

/-- C6.  The next-due-date computation adds interval units of the
pattern's period and is calendar-aware: weekly interval 1 from 2026-01-01
gives 2026-01-08; monthly interval 1 from 2026-01-31 rolls to the
calendar end of February 2026 (2026-02-28), not a fixed 30-day offset;
and a completion delivered against state with `max_occurrences=1` and
`occurrences_created=1` deletes the state and creates no task. -/
theorem recurrence_next_date_calendar_aware :
    calculate_next_due_date ⟨2026, 1, 1⟩ .weekly 1 = ⟨2026, 1, 8⟩ ∧
    calculate_next_due_date ⟨2026, 1, 31⟩ .monthly 1 = ⟨2026, 2, 28⟩ ∧
    (∀ (today : Date) (createReply : Option Int) (store : RecStore)
        (tid : Int) (uid : String) (st : RecurrenceState),
      tid ≠ 0 → uid ≠ "" → store tid = some st →
      st.config.max_occurrences = some 1 →
      st.config.occurrences_created = 1 →
      (recurring_handle_task_events today createReply store
          (some ⟨"task.completed", some tid, some uid, true⟩)).status =
        .SUCCESS ∧
      (recurring_handle_task_events today createReply store
          (some ⟨"task.completed", some tid, some uid, true⟩)).store tid =
        none ∧
      (recurring_handle_task_events today createReply store
          (some ⟨"task.completed", some tid, some uid, true⟩)).created =
        none ∧
      (recurring_handle_task_events today createReply store
          (some ⟨"task.completed", some tid, some uid, true⟩)).createCalled =
        false) := by
  refine ⟨by decide, by decide, ?_⟩
  intro today createReply store tid uid st htid huid hst hmaxo hocc
  have h1 : pyTruthyInt (some tid) = true := by
    simp [pyTruthyInt, bne_iff_ne, htid]
  have h2 : pyTruthyStr (some uid) = true := by
    simp [pyTruthyStr, bne_iff_ne, huid]
  have hmax : maxOccHit st.config = true := by
    simp [maxOccHit, hmaxo, hocc]
  simp [recurring_handle_task_events, h1, h2, hst, hmax,
    delete_recurrence_state]

/-- C6, witness: the universal part instantiated on a concrete exhausted
recurrence state. -/
theorem recurrence_next_date_calendar_aware_witness :
    calculate_next_due_date ⟨2026, 1, 1⟩ .weekly 1 = ⟨2026, 1, 8⟩ ∧
    (recurring_handle_task_events ⟨2026, 2, 1⟩ (some 100)
        (save_recurrence_state emptyRecStore 7 exStateMax)
        (some ⟨"task.completed", some 7, some "u1", true⟩)).store 7 = none ∧
    (recurring_handle_task_events ⟨2026, 2, 1⟩ (some 100)
        (save_recurrence_state emptyRecStore 7 exStateMax)
        (some ⟨"task.completed", some 7, some "u1", true⟩)).created = none := by
  have h := recurrence_next_date_calendar_aware
  have h3 := h.2.2 ⟨2026, 2, 1⟩ (some 100)
    (save_recurrence_state emptyRecStore 7 exStateMax) 7 "u1" exStateMax
    (by decide) (by decide) rfl rfl rfl
  exact ⟨h.1, h3.2.1, h3.2.2.1⟩

/-- C7.  Round-trip law: serializing any envelope with `to_dict`
(`model_dump`) and validating the resulting wire dict back into an
envelope reproduces the same `type`, `data` and `id` fields (indeed the
whole envelope), for any fresh default id and timestamp. -/
theorem task_event_round_trip (e : TaskEvent) (freshId freshTime : String) :
    ∃ e2, parse_task_event freshId freshTime (TaskEvent.to_dict e) = some e2 ∧
      e2.type = e.type ∧ e2.data = e.data ∧ e2.id = e.id :=
  ⟨e, rfl, rfl, rfl, rfl⟩

/-- C8.  Publishing with the publisher disabled returns success and
makes zero HTTP attempts, for every topic, envelope and environment. -/
theorem publish_disabled_returns_success (p : EventPublisher) (topic : Topics)
    (event : TaskEvent) (plan : List AttemptOutcome)
    (h : p.enabled = false) :
    publish p topic event plan = (true, 0) := by
  simp [publish, h]

/-- C8, witness: a disabled publisher on a concrete envelope and plan. -/
theorem publish_disabled_returns_success_witness :
    publish { enabled := false } Topics.TASK_EVENTS exTaskEvent
      [.connError, .connError, .connError] = (true, 0) :=
  publish_disabled_returns_success _ _ _ _ rfl

/-- C9.  If every one of the `retry_count` planned attempts fails
(connection error, timeout, unexpected exception, or a status other than
200/204), `publish` returns false after exactly `retry_count` attempts —
in particular at most `retry_count` — and, being a total function of the
attempt plan, propagates no exception to the caller. -/
theorem publish_all_attempts_fail_returns_false (p : EventPublisher)
    (topic : Topics) (event : TaskEvent) (plan : List AttemptOutcome)
    (retry_count : Nat) (hen : p.enabled = true)
    (hlen : plan.length = retry_count)
    (hfail : ∀ o ∈ plan, attemptOk o = false) :
    (publish p topic event plan).1 = false ∧
    (publish p topic event plan).2 = retry_count ∧
    (publish p topic event plan).2 ≤ retry_count := by
  have hl := publishLoop_all_fail plan hfail
  simp [publish, hen, hl, hlen]

/-- C9, witness: the default budget of three attempts, all failing
differently. -/
theorem publish_all_attempts_fail_returns_false_witness :
    (publish {} Topics.TASK_EVENTS exTaskEvent
        [.connError, .timeoutErr, .status 500]).1 = false ∧
    (publish {} Topics.TASK_EVENTS exTaskEvent
        [.connError, .timeoutErr, .status 500]).2 ≤ 3 := by
  have h := publish_all_attempts_fail_returns_false {} Topics.TASK_EVENTS
    exTaskEvent [.connError, .timeoutErr, .status 500] 3 rfl rfl (by decide)
  exact ⟨h.1, h.2.2⟩

/-- C10.  In the connection registry, `connect` and `disconnect` preserve
the invariant that every registered user maps to a non-empty connection
set, but `send_to_user` does not: it never removes the user's key, so
when every one of a registered user's connections fails to send, the
failing connections are discarded and the user remains registered, mapped
to the empty set — breaking the invariant. -/
theorem connection_registry_send_keeps_user :
    (∀ m u w, registryInv m → registryInv (cmConnect m u w)) ∧
    (∀ m u w, registryInv m → registryInv (cmDisconnect m u w)) ∧
    (∀ m u s fails, m u = some s → (∀ c ∈ s, fails c = true) →
      cmSendToUser m u fails u = some []) ∧
    (∀ m u fails u2,
      (cmSendToUser m u fails u2).isSome = (m u2).isSome) ∧
    (∀ m u s fails, m u = some s → s ≠ [] → (∀ c ∈ s, fails c = true) →
      ¬ registryInv (cmSendToUser m u fails)) := by
  have hsend : ∀ (m : ConnMap) u s fails, m u = some s →
      (∀ c ∈ s, fails c = true) → cmSendToUser m u fails u = some [] := by
    intro m u s fails hm hall
    have hf := filter_all_fail_eq_nil fails s hall
    simp [cmSendToUser, hm, cmUpdate, hf]
    exact hall
  refine ⟨?_, ?_, hsend, ?_, ?_⟩
  · intro m u w hm
    unfold cmConnect
    cases hmu : m u with
    | none =>
      refine registryInv_update m u (some [w]) hm ?_
      intro s2 hs2
      cases hs2
      simp
    | some s =>
      refine registryInv_update m u _ hm ?_
      intro s2 hs2
      cases hs2
      have hs := hm u s hmu
      by_cases hw : w ∈ s
      · simpa [hw] using hs
      · simp [hw]
  · intro m u w hm
    unfold cmDisconnect
    cases hmu : m u with
    | none => exact hm
    | some s =>
      dsimp only
      split
      · exact registryInv_update m u none hm fun s2 hs2 => by cases hs2
      · next hne =>
        refine registryInv_update m u _ hm ?_
        intro s2 hs2
        cases hs2
        intro hnil
        exact hne (by rw [hnil]; rfl)
  · intro m u fails u2
    cases hmu : m u with
    | none => simp only [cmSendToUser, hmu]
    | some s =>
      simp only [cmSendToUser, hmu, cmUpdate]
      by_cases he : u2 = u
      · rw [if_pos he, he, hmu]
        rfl
      · rw [if_neg he]
  · intro m u s fails hm hne hall hinv
    exact hinv u [] (hsend m u s fails hm hall) rfl

/-- C10, witness: a single registered user with one connection that
always fails; after the send the user is still registered with an empty
set. -/
theorem connection_registry_send_keeps_user_witness :
    cmSendToUser (cmConnect emptyConnMap "u1" 1) "u1" (fun _ => true) "u1" =
      some [] :=
  connection_registry_send_keeps_user.2.2.1 (cmConnect emptyConnMap "u1" 1)
    "u1" [1] (fun _ => true) rfl (by decide)

end Spec2Proof
